import Mathlib

/-!
Verification of the ZK insurance verifier TCP server
(src/server/src/main.rs of marlinprotocol/ZK-Insurance-verifier-TEE).

The Rust program drives an external proving toolchain through a fixed
pipeline (`NoirProver::generate_proof`) and exposes it over a line-based
TCP session (`handle_client`).  We embed both shallowly: the outcomes of
filesystem probes and external tool invocations become fields of an
explicit environment record, and the two functions become pure Lean
functions from that environment to the values the Rust code returns.
All text is modelled as `List Char`.
-/

deriving instance DecidableEq for Except

namespace ZKIns

/-- Rust strings and the byte streams written to the client, modelled as
character lists. -/
abbrev Str := List Char

/-- The Unicode White_Space property, which is what Rust
`char::is_whitespace` (used by `str::trim` at main.rs:246 and :255)
tests. -/
def isWhite (c : Char) : Bool :=
  (9 ≤ c.toNat && c.toNat ≤ 13) || c.toNat = 32 || c.toNat = 133 ||
  c.toNat = 160 || c.toNat = 5760 || (8192 ≤ c.toNat && c.toNat ≤ 8202) ||
  c.toNat = 8232 || c.toNat = 8233 || c.toNat = 8239 || c.toNat = 8287 ||
  c.toNat = 12288

/-- Rust `str::trim`: remove leading and trailing whitespace. -/
def rustTrim (s : Str) : Str :=
  ((s.dropWhile isWhite).reverse.dropWhile isWhite).reverse

/-- ASCII decimal digit test, as used by Rust integer parsing. -/
def isDigitChar (c : Char) : Bool :=
  48 ≤ c.toNat && c.toNat ≤ 57

/-- Rust `u32::from_str` (`line.trim().parse()` at main.rs:246 and :255):
an optional leading plus sign, then one or more ASCII digits, rejected on
overflow past `u32::MAX`.  Returns the parsed value. -/
def parseU32 (s : Str) : Option Nat :=
  let s2 := match s with
    | c :: rest => if c = '+' then rest else s
    | [] => s
  if s2.isEmpty then none
  else if s2.all isDigitChar then
    let n := s2.foldl (fun a c => a * 10 + (c.toNat - 48)) 0
    if n < 4294967296 then some n else none
  else none

/-- The sixteen lowercase hex digits, the alphabet used both by
`od -An -v -t x1` (main.rs:142) and by `hex::encode` (main.rs:189). -/
def hexDigits : Str := ("0123456789abcdef").data

/-- Lowercase hex digit of `n % 16`. -/
def hexDigit (n : Nat) : Char := hexDigits.getD (n % 16) '0'

/-- Two lowercase hex digits of one byte. -/
def hexByte (b : Nat) : Str := [hexDigit (b / 16), hexDigit b]

/-- Lowercase hex rendering of a byte sequence (`hex::encode`, and the
`od`-based rendering of the proof file, both produce exactly this). -/
def hexEncode : List Nat → Str
  | [] => []
  | b :: bs => hexByte b ++ hexEncode bs

/-- Little-endian base-10 digits with explicit fuel, so that the
definition is structurally recursive and evaluates inside the kernel. -/
def decAux : Nat → Nat → List Nat
  | 0, _ => []
  | _ + 1, 0 => []
  | fuel + 1, n + 1 => ((n + 1) % 10) :: decAux fuel ((n + 1) / 10)

/-- Little-endian base-10 digits of `n` (equal to `Nat.digits 10 n`). -/
def decimalDigits (n : Nat) : List Nat := decAux n n

/-- Big-endian decimal character rendering of a `Nat`, as Rust `Display`
for `u32` produces (used for `format!` interpolation of the inputs). -/
def decimalChars (n : Nat) : Str :=
  if n = 0 then [hexDigit 0]
  else (decimalDigits n).reverse.map hexDigit

/-- Does `needle` occur at the head of `hay`? -/
def leadsWith : Str → Str → Bool
  | _, [] => true
  | [], _ :: _ => false
  | a :: as, b :: bs => a = b && leadsWith as bs

/-- Does `needle` occur contiguously anywhere in `hay`?  Used to state
that a diagnostic message embeds a captured stderr stream. -/
def containsSeg (hay needle : Str) : Bool :=
  (List.range (hay.length + 1)).any fun i => leadsWith (hay.drop i) needle

/-- Rust `struct ProofRequest` (main.rs:18-22).  Fields are parsed from `u32`
values; we carry them as `Nat` (the session layer only produces values
below `2^32`). -/
structure ProofRequest where
  age : Nat
  bmi_multiplied : Nat
deriving DecidableEq, Repr

/-- Rust `struct ProofResponse` (main.rs:24-30). -/
structure ProofResponse where
  proof_hex : Str
  public_inputs : Str
  success : Bool
  message : Str
deriving DecidableEq, Repr

/-- Captured result of one `std::process::Command::output()` call that
did spawn: exit-status success flag plus both output streams. -/
structure ToolResult where
  success : Bool
  stdout : Str
  stderr : Str
deriving DecidableEq, Repr

/-- Environment of one `generate_proof` run: the outcome of every
filesystem probe and external invocation the Rust function performs, in
program order.  `Option ToolResult` is `none` when the program could not
be started at all (`Command::output()` returned `Err`), and
`Option Str`/`Option (List Nat)` model fallible reads (`none` = `Err`). -/
structure PipelineEnv where
  /-- Result of `Path::new("/app/noir-circuit").exists()` in `NoirProver::new` (main.rs:40). -/
  dockerDetect : Bool
  /-- Outcome of `fs::write(Prover.toml)` (main.rs:66): `none` = Ok, `some e` = the io
  error propagated by the `?` operator. -/
  writeErr : Option Str
  /-- Outcome of `nargo execute` (main.rs:69-72). -/
  nargoExecute : Option ToolResult
  /-- Whether `target/insurance_verifier.gz` exists (main.rs:88). -/
  witnessGzExists : Bool
  /-- Whether `target/insurance_verifier` exists (main.rs:89). -/
  witnessExists : Bool
  /-- Outcome of `bb prove ...` (main.rs:100-110). -/
  bbProve : Option ToolResult
  /-- Whether `target/proof` exists (main.rs:131). -/
  proofExists : Bool
  /-- Contents of `target/proof`, as bytes (each < 256 in any real run). -/
  proofBytes : List Nat
  /-- The `sh -c` hex-conversion process could be spawned (main.rs:140-144). -/
  hexSpawnOk : Bool
  /-- Whether `target/public_inputs_fields.json` exists (main.rs:165). -/
  fieldsJsonExists : Bool
  /-- Outcome of `fs::read_to_string` on the fields JSON (main.rs:167): `none` = Err. -/
  fieldsJsonText : Option Str
  /-- Io error display text when the fields JSON read fails. -/
  fieldsErrStr : Str
  /-- Whether `target/public_inputs` exists (main.rs:178). -/
  pubExists : Bool
  /-- Outcome of `fs::read_to_string(public_inputs)` (main.rs:180): `none` = Err
  (e.g. not valid UTF-8). -/
  pubText : Option Str
  /-- Outcome of the `fs::read(public_inputs)` binary fallback (main.rs:186): `none` = Err. -/
  pubBytes : Option (List Nat)
  /-- Io error display text when the binary read also fails. -/
  pubErrStr : Str
deriving DecidableEq, Repr

/-- From `NoirProver::new` (main.rs:37-49): the circuit directory. -/
def circuitPath (docker : Bool) : Str :=
  if docker then ("/app/noir-circuit").data else ("../noir-circuit").data

/-- Failure message of the ExecuteCircuit stage (main.rs:80-83). -/
def execFailText (stderr : Str) : Str :=
  ("Circuit execution failed. The inputs don\x27t satisfy the constraints: ").data ++ stderr

/-- Failure message for the missing witness artifact (main.rs:95). -/
def witnessMissingText : Str :=
  ("Witness file was not generated after circuit execution").data

/-- Failure message of the GenerateProof stage (main.rs:118-120). -/
def bbFailText (stderr : Str) : Str :=
  ("Proof generation failed: ").data ++ stderr

/-- Failure message for the missing proof artifact (main.rs:136). -/
def proofMissingText (docker : Bool) : Str :=
  ("Proof file was not generated at path: ").data ++ circuitPath docker ++
    ("/target/proof").data

/-- Failure message when reading `public_inputs_fields.json` fails (main.rs:174). -/
def fieldsReadFailText (docker : Bool) (e : Str) : Str :=
  ("Failed to read public inputs fields JSON at ").data ++ circuitPath docker ++
    ("/target/public_inputs_fields.json: ").data ++ e

/-- Failure message when both reads of `public_inputs` fail (main.rs:206). -/
def pubReadFailText (docker : Bool) (e : Str) : Str :=
  ("Failed to read public inputs file at ").data ++ circuitPath docker ++
    ("/target/public_inputs: ").data ++ e

/-- Failure message when neither public-input artifact exists (main.rs:217). -/
def neitherPubText (docker : Bool) : Str :=
  ("Neither public_inputs_fields.json nor public_inputs file was generated at ").data ++
    circuitPath docker ++ ("/target").data

/-- Success message (main.rs:225). -/
def successText : Str :=
  ("Proof generated successfully! The user is eligible for insurance discount.").data

/-- The `Prover.toml` content written in step 1 (main.rs:55-63). -/
def proverToml (request : ProofRequest) : Str :=
  ("age = \"").data ++ decimalChars request.age ++
  ("\"\nbmi = \"").data ++ decimalChars request.bmi_multiplied ++
  ("\"\nmin_age = \"10\"\nmax_age = \"25\"\nmin_bmi = \"185\"\nmax_bmi = \"249\"").data

/-- Fuel-driven slicing into 64-character pieces; each step consumes at
least one character, so `s.length` fuel is always enough. -/
def chunkAux : Nat → Str → List Str
  | 0, _ => []
  | _ + 1, [] => []
  | fuel + 1, c :: rest => ((c :: rest).take 64) :: chunkAux fuel ((c :: rest).drop 64)

/-- Successive 64-character slices, as produced by the loop
`for i in (0..hex_string.len()).step_by(64)` with slice
`[i, min(i+64, len))` (main.rs:192-195). -/
def chunk64 (s : Str) : List Str := chunkAux s.length s

/-- Rust `Vec::join(",")` (main.rs:196). -/
def joinComma : List Str → Str
  | [] => []
  | [x] => x
  | x :: y :: xs => x ++ (",").data ++ joinComma (y :: xs)

/-- The binary fallback rendering of `public_inputs` (main.rs:187-199):
hex-encode the bytes; when the hex length is a positive multiple of 64,
slice into 64-character field elements each quoted as `"0x..."` and
joined with commas inside brackets; otherwise render the whole content
as one `0x`-prefixed hex string. -/
def binaryPublicInputs (bytes : List Nat) : Str :=
  let hex_string := hexEncode bytes
  if hex_string.length % 64 == 0 && !hex_string.isEmpty then
    ("[").data ++
      joinComma ((chunk64 hex_string).map
        (fun c => ("\"0x").data ++ c ++ ("\"").data)) ++
      ("]").data
  else
    ("0x").data ++ hex_string

/-- Embedding of `NoirProver::generate_proof` (main.rs:51-227), with every effect
outcome drawn from `env`.  `.error` is the `anyhow::Result::Err` case
(the `?` operator / `.context(...)` propagation); `.ok` is `Ok(..)`.

The hex conversion (main.rs:140-158) runs the fixed shell pipeline
`echo -n 0x; cat target/proof | od -An -v -t x1 | tr -d ...`: its exit
status is that of `tr`, which is zero, and its stdout is `0x` followed
by the lowercase hex dump of the proof bytes with all spacing removed,
so the non-zero-status branch at main.rs:146 cannot fire and the
captured stdout is `0x ++ hexEncode proofBytes`. -/
def generate_proof (env : PipelineEnv) (_request : ProofRequest) :
    Except Str ProofResponse :=
  -- Step 1: write Prover.toml (main.rs:66); the io error propagates via the
  -- question-mark operator.
  match env.writeErr with
  | some e => .error e
  | none =>
  -- Step 2: nargo execute (main.rs:69-73).
  match env.nargoExecute with
  | none => .error ("Failed to execute circuit").data
  | some execOut =>
  if !execOut.success then
    .ok { proof_hex := [], public_inputs := [], success := false,
          message := execFailText execOut.stderr }
  else if !env.witnessGzExists && !env.witnessExists then
    .ok { proof_hex := [], public_inputs := [], success := false,
          message := witnessMissingText }
  else
  -- Step 3: bb prove (main.rs:100-111).
  match env.bbProve with
  | none => .error ("Failed to generate proof with bb").data
  | some proveOut =>
  if !proveOut.success then
    .ok { proof_hex := [], public_inputs := [], success := false,
          message := bbFailText proveOut.stderr }
  else if !env.proofExists then
    .ok { proof_hex := [], public_inputs := [], success := false,
          message := proofMissingText env.dockerDetect }
  else if !env.hexSpawnOk then
    .error ("Failed to convert proof to hex format").data
  else
  -- main.rs:158: trim the captured stdout.
  let proof_hex := rustTrim (("0x").data ++ hexEncode env.proofBytes)
  -- Step 5: locate public inputs (main.rs:162-219).
  if env.fieldsJsonExists then
    match env.fieldsJsonText with
    | some content =>
      .ok { proof_hex := proof_hex, public_inputs := rustTrim content,
            success := true, message := successText }
    | none =>
      .ok { proof_hex := proof_hex, public_inputs := [], success := false,
            message := fieldsReadFailText env.dockerDetect env.fieldsErrStr }
  else if env.pubExists then
    match env.pubText with
    | some text =>
      .ok { proof_hex := proof_hex, public_inputs := rustTrim text,
            success := true, message := successText }
    | none =>
      match env.pubBytes with
      | some bytes =>
        .ok { proof_hex := proof_hex, public_inputs := binaryPublicInputs bytes,
              success := true, message := successText }
      | none =>
        .ok { proof_hex := proof_hex, public_inputs := [], success := false,
              message := pubReadFailText env.dockerDetect env.pubErrStr }
  else
    .ok { proof_hex := proof_hex, public_inputs := [], success := false,
          message := neitherPubText env.dockerDetect }

/-! ## Session protocol (`handle_client`, main.rs:230-323) -/

/-- Welcome banner (main.rs:238-239). -/
def welcomeText : Str :=
  ("ZK Insurance Verifier Server\n").data ++
  ("============================\n").data

/-- Age prompt (main.rs:240). -/
def agePromptText : Str := ("Enter age (10-25): ").data

/-- BMI prompt (main.rs:249). -/
def bmiPromptText : Str := ("Enter BMI multiplied by 10 (185-249): ").data

/-- The header line written before the narration (main.rs:262). -/
def genLineText : Str := ("\nGenerating proof...\n").data

/-- The four fixed per-stage narration lines (main.rs:263-266). -/
def stepLinesText : Str :=
  ("Step 1: Writing inputs to Prover.toml...\n").data ++
  ("Step 2: Executing circuit to generate witness (nargo execute)...\n").data ++
  ("Step 3: Generating proof with Barretenberg (bb prove)...\n").data ++
  ("Step 4: Converting proof to hex format...\n").data

/-- Everything written between the parsed inputs and the pipeline call
(main.rs:262-267). -/
def progressText : Str := genLineText ++ stepLinesText

/-- Rust `Display` for `bool`. -/
def boolText (b : Bool) : Str :=
  if b then ("true").data else ("false").data

/-- The result banner (main.rs:271-275). -/
def resultBlockText (response : ProofResponse) : Str :=
  ("\n=== PROOF GENERATION RESULT ===\nSuccess: ").data ++
  boolText response.success ++ ("\nMessage: ").data ++
  response.message ++ ("\n").data

/-- Proof display block (main.rs:279-281). -/
def proofBlockText (hex : Str) : Str :=
  ("\n=== PROOF (HEX FORMAT) ===\n").data ++ hex ++ ("\n").data

/-- Public-inputs display block (main.rs:284-286). -/
def publicInputsBlockText (pi : Str) : Str :=
  ("\n=== PUBLIC INPUTS ===\n").data ++ pi ++ ("\n").data

/-- Saved-files message (main.rs:290-299). -/
def saveMsgText (ts : Str) : Str :=
  ("\nFiles saved:\n  - Proof: proof_").data ++ ts ++
  (".hex\n  - Public Inputs: public_inputs_").data ++ ts ++ (".txt\n").data

/-- Verification hint (main.rs:303-305). -/
def verificationText : Str :=
  ("\n=== VERIFICATION ===\n").data ++
  ("To verify this proof, use the proof hex and public inputs displayed above.\n").data ++
  ("The proof has been generated using the correct bb command format.\n").data

/-- Error-details block for a failed pipeline run (main.rs:308-310). -/
def errorDetailsText (msg : Str) : Str :=
  ("\n=== ERROR DETAILS ===\n").data ++ msg ++ ("\n").data

/-- The `Err` arm of the pipeline call (main.rs:313-315). -/
def errArmText (e : Str) : Str :=
  ("Error generating proof: ").data ++ e ++ ("\n").data

/-- Closing line (main.rs:319). -/
def closingText : Str :=
  ("\nConnection will close. Thanks for using ZK Insurance Verifier!\n").data

/-- Environment of one session beyond the pipeline: the timestamp used
for artifact names (main.rs:289) and the outcomes of the two
`fs::write` persistence calls (main.rs:293-294; `none` = Ok). -/
structure SessionEnv where
  penv : PipelineEnv
  timestampStr : Str
  saveProofErr : Option Str
  savePubErr : Option Str
deriving DecidableEq, Repr

/-- Observable outcome of one `handle_client` run: the byte stream
written to the client, the function result (`Err` is logged by the
accept loop), whether the pipeline was invoked, and the request it was
invoked with. -/
structure SessionResult where
  transcript : Str
  outcome : Except Str Unit
  pipelineInvoked : Bool
  request : Option ProofRequest
deriving Repr

/-- Embedding of `handle_client` (main.rs:230-323): read two lines, trim-and-parse
each as `u32`, then drive the pipeline and render its outcome.  Stream
writes are modelled as always succeeding; `ageLine` and `bmiLine` are
what the two `read_line` calls deliver (an immediate EOF delivers the
empty line).  Parse failures propagate through the question-mark
operator with the contexts at main.rs:246 and main.rs:255, so nothing
further is written to the client in those cases. -/
def handle_client (senv : SessionEnv) (ageLine bmiLine : Str) : SessionResult :=
  match parseU32 (rustTrim ageLine) with
  | none =>
    { transcript := welcomeText ++ agePromptText,
      outcome := .error (("Invalid age input").data),
      pipelineInvoked := false, request := none }
  | some age =>
  match parseU32 (rustTrim bmiLine) with
  | none =>
    { transcript := welcomeText ++ agePromptText ++ bmiPromptText,
      outcome := .error (("Invalid BMI input").data),
      pipelineInvoked := false, request := none }
  | some bmi =>
  let request : ProofRequest := { age := age, bmi_multiplied := bmi }
  match generate_proof senv.penv request with
  | .ok response =>
    if response.success then
      -- main.rs:277-305: proof block, public inputs, two fs::write calls
      -- (each of which aborts the session through the question-mark
      -- operator on failure), saved-files message, verification hint.
      match senv.saveProofErr with
      | some e =>
        { transcript := welcomeText ++ agePromptText ++ bmiPromptText ++
            progressText ++ resultBlockText response ++
            proofBlockText response.proof_hex ++
            publicInputsBlockText response.public_inputs,
          outcome := .error e, pipelineInvoked := true, request := some request }
      | none =>
      match senv.savePubErr with
      | some e =>
        { transcript := welcomeText ++ agePromptText ++ bmiPromptText ++
            progressText ++ resultBlockText response ++
            proofBlockText response.proof_hex ++
            publicInputsBlockText response.public_inputs,
          outcome := .error e, pipelineInvoked := true, request := some request }
      | none =>
        { transcript := welcomeText ++ agePromptText ++ bmiPromptText ++
            progressText ++ resultBlockText response ++
            proofBlockText response.proof_hex ++
            publicInputsBlockText response.public_inputs ++
            saveMsgText senv.timestampStr ++ verificationText ++ closingText,
          outcome := .ok (), pipelineInvoked := true, request := some request }
    else
      { transcript := welcomeText ++ agePromptText ++ bmiPromptText ++
          progressText ++ resultBlockText response ++
          errorDetailsText response.message ++ closingText,
        outcome := .ok (), pipelineInvoked := true, request := some request }
  | .error e =>
    { transcript := welcomeText ++ agePromptText ++ bmiPromptText ++
        progressText ++ errArmText e ++ closingText,
      outcome := .ok (), pipelineInvoked := true, request := some request }

/-- The accept loop's per-session logging (main.rs:349-355): `Err`
results are rendered on the server console by `eprintln!`, successful
sessions by `println!`.  Nothing here is written to the client. -/
def acceptLogLine (addr : Str) (outcome : Except Str Unit) : Str :=
  match outcome with
  | .error e =>
    ("Error handling client ").data ++ addr ++ (": ").data ++ e ++ ("\n").data
  | .ok _ =>
    ("Client ").data ++ addr ++ (" disconnected\n").data

/-- Everything `handle_client` writes at or after the pipeline call,
as a function of the pipeline result: the transcript of a session whose
inputs parse is always the fixed preamble (banner, prompts, progress
narration) followed by this tail. -/
def sessionTail (senv : SessionEnv) (result : Except Str ProofResponse) : Str :=
  match result with
  | .ok response =>
    if response.success then
      match senv.saveProofErr with
      | some _ =>
        resultBlockText response ++ proofBlockText response.proof_hex ++
          publicInputsBlockText response.public_inputs
      | none =>
        match senv.savePubErr with
        | some _ =>
          resultBlockText response ++ proofBlockText response.proof_hex ++
            publicInputsBlockText response.public_inputs
        | none =>
          resultBlockText response ++ proofBlockText response.proof_hex ++
            publicInputsBlockText response.public_inputs ++
            saveMsgText senv.timestampStr ++ verificationText ++ closingText
    else
      resultBlockText response ++ errorDetailsText response.message ++
        closingText
  | .error e => errArmText e ++ closingText

/-! ## Concrete environments for witnesses and counterexamples -/

/-- A zero-exit tool invocation with empty streams. -/
def toolOk : ToolResult := { success := true, stdout := [], stderr := [] }

/-- A non-zero-exit tool invocation with a diagnostic on stderr. -/
def toolFail : ToolResult :=
  { success := false, stdout := [], stderr := ("assertion failed").data }

/-- A fully successful run: every probe and invocation succeeds and the
pre-formatted fields artifact is present. -/
def envOk : PipelineEnv :=
  { dockerDetect := true, writeErr := none, nargoExecute := some toolOk,
    witnessGzExists := true, witnessExists := false, bbProve := some toolOk,
    proofExists := true, proofBytes := [1, 2], hexSpawnOk := true,
    fieldsJsonExists := true, fieldsJsonText := some (("[\"0x01\"]").data),
    fieldsErrStr := [], pubExists := false, pubText := none, pubBytes := none,
    pubErrStr := [] }

/-- A run that reaches the hex conversion successfully but then finds
neither public-input artifact: the proof file held one zero byte. -/
def envNoPub : PipelineEnv :=
  { envOk with proofBytes := [0], fieldsJsonExists := false,
               fieldsJsonText := none }

/-- A run whose proof artifact exists but is empty (zero bytes). -/
def envEmptyProof : PipelineEnv := { envOk with proofBytes := [] }

/-- A run where the fields artifact is absent and `public_inputs` is a
single byte `0xab` that is not valid UTF-8 text. -/
def envOneByte : PipelineEnv :=
  { envOk with fieldsJsonExists := false, fieldsJsonText := none,
               pubExists := true, pubText := none, pubBytes := some [171] }

/-- A run where `nargo execute` exits non-zero with a diagnostic. -/
def envNargoFail : PipelineEnv :=
  { envOk with nargoExecute := some toolFail }

/-- A run where the executor exits zero but no witness artifact appears. -/
def envNoWitness : PipelineEnv :=
  { envOk with witnessGzExists := false, witnessExists := false }

/-- A run where `bb prove` exits zero but no proof artifact appears. -/
def envNoProof : PipelineEnv := { envOk with proofExists := false }

/-- A run where `nargo` cannot be started at all. -/
def envNargoSpawnFail : PipelineEnv := { envOk with nargoExecute := none }

/-- A session wrapper with a fixed timestamp and successful persistence. -/
def senvOf (penv : PipelineEnv) : SessionEnv :=
  { penv := penv, timestampStr := ("1700000000").data,
    saveProofErr := none, savePubErr := none }

/-- Lowercase hex digit test (the character class of `0x[0-9a-f]+`). -/
def isHexDigitChar (c : Char) : Bool :=
  (48 ≤ c.toNat && c.toNat ≤ 57) || (97 ≤ c.toNat && c.toNat ≤ 102)

/-- Does `s` match the regular expression `0x[0-9a-f]+` exactly? -/
def matchesHexPattern (s : Str) : Bool :=
  match s with
  | c1 :: c2 :: rest =>
    c1 = '0' && c2 = 'x' && !rest.isEmpty && rest.all isHexDigitChar
  | _ => false

/-- The run reaches step 5 (EncodeAndCollect): the Prover.toml write,
both tool invocations and the hex conversion succeeded, and the witness
and proof artifacts were found. -/
def reachesCollect (env : PipelineEnv) : Bool :=
  env.writeErr.isNone &&
  (match env.nargoExecute with | some r => r.success | none => false) &&
  (env.witnessGzExists || env.witnessExists) &&
  (match env.bbProve with | some r => r.success | none => false) &&
  env.proofExists && env.hexSpawnOk

/-- The field-element array rendering that the specification describes
for the binary fallback: always split into 32-byte field elements,
each rendered as a quoted `0x` hex string, joined inside brackets.
This is the claimed behaviour; the code only does this when the hex
length is a positive multiple of 64. -/
def claimedBinaryRender (bytes : List Nat) : Str :=
  ("[").data ++
    joinComma ((chunk64 (hexEncode bytes)).map
      (fun c => ("\"0x").data ++ c ++ ("\"").data)) ++
    ("]").data

/-- A fixed in-range request used for concrete instantiations. -/
def reqStd : ProofRequest := { age := 15, bmi_multiplied := 200 }

/-- The `proof_hex` value computed at main.rs:158 (trimmed stdout of the
hex conversion). -/
def collectedHex (env : PipelineEnv) : Str :=
  rustTrim (("0x").data ++ hexEncode env.proofBytes)

/-- The response `generate_proof` produces on `envOk`. -/
def respOk : ProofResponse :=
  { proof_hex := ("0x0102").data, public_inputs := ("[\"0x01\"]").data,
    success := true, message := successText }

/-- The response `generate_proof` produces on `envNoPub`. -/
def respNoPub : ProofResponse :=
  { proof_hex := ("0x00").data, public_inputs := [],
    success := false, message := neitherPubText true }

/-- The response `generate_proof` produces on `envOneByte`. -/
def respOneByte : ProofResponse :=
  { proof_hex := ("0x0102").data, public_inputs := ("0xab").data,
    success := true, message := successText }

/-- The response `generate_proof` produces on `envEmptyProof`. -/
def respEmptyProof : ProofResponse :=
  { proof_hex := ("0x").data, public_inputs := ("[\"0x01\"]").data,
    success := true, message := successText }

/-! ## Helper lemmas -/

theorem dropWhile_eq_self_of_not (p : Char → Bool) (l : Str)
    (h : ∀ c ∈ l, p c = false) : l.dropWhile p = l := by
  cases l with
  | nil => rfl
  | cons c t => simp [List.dropWhile_cons, h c (List.mem_cons_self c t)]

theorem rustTrim_eq_self (l : Str) (h : ∀ c ∈ l, isWhite c = false) :
    rustTrim l = l := by
  unfold rustTrim
  rw [dropWhile_eq_self_of_not _ _ h,
      dropWhile_eq_self_of_not _ _ (fun c hc => h c (List.mem_reverse.mp hc)),
      List.reverse_reverse]

theorem hexDigit_not_white (n : Nat) : isWhite (hexDigit n) = false := by
  have hall : ∀ m : Fin 16, isWhite (hexDigits.getD m.val '0') = false := by decide
  exact hall ⟨n % 16, Nat.mod_lt _ (by decide)⟩

theorem hexDigit_is_hex (n : Nat) : isHexDigitChar (hexDigit n) = true := by
  have hall : ∀ m : Fin 16, isHexDigitChar (hexDigits.getD m.val '0') = true := by decide
  exact hall ⟨n % 16, Nat.mod_lt _ (by decide)⟩

theorem mem_hexEncode (bs : List Nat) :
    ∀ c ∈ hexEncode bs, ∃ n, c = hexDigit n := by
  induction bs with
  | nil => intro c hc; cases hc
  | cons b t ih =>
    intro c hc
    rw [hexEncode] at hc
    rcases List.mem_append.mp hc with h | h
    · rcases h with _ | ⟨_, h⟩
      · exact ⟨b / 16, rfl⟩
      · rcases h with _ | ⟨_, h⟩
        · exact ⟨b, rfl⟩
        · cases h
    · exact ih c h

theorem proofHex_trim (bs : List Nat) :
    rustTrim (("0x").data ++ hexEncode bs) = ("0x").data ++ hexEncode bs := by
  apply rustTrim_eq_self
  intro c hc
  rcases List.mem_append.mp hc with h | h
  · rcases h with _ | ⟨_, h⟩
    · decide
    · rcases h with _ | ⟨_, h⟩
      · decide
      · cases h
  · rcases mem_hexEncode bs c h with ⟨n, rfl⟩
    exact hexDigit_not_white n

theorem proofHex_ne_nil (bs : List Nat) :
    ("0x").data ++ hexEncode bs ≠ [] := by
  intro h
  have h2 : ('0' :: ('x' :: hexEncode bs)) = ([] : Str) := h
  cases h2

theorem leadsWith_refl (s : Str) : leadsWith s s = true := by
  induction s with
  | nil => rfl
  | cons a t ih => simp [leadsWith, ih]

theorem containsSeg_append_self (p s : Str) : containsSeg (p ++ s) s = true := by
  unfold containsSeg
  rw [List.any_eq_true]
  refine ⟨p.length, ?_, ?_⟩
  · rw [List.mem_range, List.length_append]; omega
  · rw [List.drop_left]; exact leadsWith_refl s

theorem dropWhile_append_of_forall (p : Char → Bool) (pre l : Str)
    (h : ∀ c ∈ pre, p c = true) :
    (pre ++ l).dropWhile p = l.dropWhile p := by
  induction pre with
  | nil => rfl
  | cons a t ih =>
    rw [List.cons_append, List.dropWhile_cons, h a (List.mem_cons_self a t)]
    simp only [if_true]
    exact ih (fun c hc => h c (List.mem_cons_of_mem a hc))

theorem dropWhile_eq_nil_of_forall (p : Char → Bool) (l : Str)
    (h : ∀ c ∈ l, p c = true) : l.dropWhile p = [] := by
  induction l with
  | nil => rfl
  | cons a t ih =>
    rw [List.dropWhile_cons, h a (List.mem_cons_self a t)]
    simp only [if_true]
    exact ih (fun c hc => h c (List.mem_cons_of_mem a hc))

theorem rustTrim_pad (pre s post : Str)
    (hpre : ∀ c ∈ pre, isWhite c = true) (hpost : ∀ c ∈ post, isWhite c = true) :
    rustTrim (pre ++ s ++ post) = rustTrim s := by
  unfold rustTrim
  rw [List.append_assoc, dropWhile_append_of_forall _ _ _ hpre,
      List.dropWhile_append]
  by_cases hcase : (s.dropWhile isWhite).isEmpty
  · rw [if_pos hcase, dropWhile_eq_nil_of_forall _ _ hpost]
    have hnil : s.dropWhile isWhite = [] := List.isEmpty_iff.mp hcase
    rw [hnil]
  · rw [if_neg hcase, List.reverse_append,
        dropWhile_append_of_forall _ _ _
          (fun c hc => hpost c (List.mem_reverse.mp hc))]

theorem decAux_eq (fuel : Nat) :
    ∀ n, n ≤ fuel → decAux fuel n = Nat.digits 10 n := by
  induction fuel with
  | zero =>
    intro n hn
    have h0 : n = 0 := Nat.le_zero.mp hn
    subst h0
    simp [decAux]
  | succ f ih =>
    intro n hn
    cases n with
    | zero => simp [decAux]
    | succ m =>
      rw [decAux, ih ((m + 1) / 10) ?_,
          Nat.digits_def' (by norm_num : (1 : ℕ) < 10) (Nat.succ_pos m)]
      have : (m + 1) / 10 < m + 1 := Nat.div_lt_self (Nat.succ_pos m) (by norm_num)
      omega

theorem decimalDigits_eq (n : Nat) : decimalDigits n = Nat.digits 10 n :=
  decAux_eq n n le_rfl

theorem foldl_base10 (ds : List Nat) (a : Nat) :
    List.foldl (fun acc d => acc * 10 + d) a ds =
      a * 10 ^ ds.length + Nat.ofDigits 10 ds.reverse := by
  induction ds generalizing a with
  | nil => simp
  | cons d t ih =>
    rw [List.foldl_cons, ih, List.reverse_cons, Nat.ofDigits_append]
    simp [Nat.ofDigits_cons, Nat.ofDigits_nil]
    ring

theorem hexDigit_toNat_sub (d : Nat) (h : d < 10) :
    (hexDigit d).toNat - 48 = d := by
  have hall : ∀ m : Fin 10, (hexDigit m.val).toNat - 48 = m.val := by decide
  exact hall ⟨d, h⟩

theorem hexDigit_is_digit (d : Nat) (h : d < 10) :
    isDigitChar (hexDigit d) = true := by
  have hall : ∀ m : Fin 10, isDigitChar (hexDigit m.val) = true := by decide
  exact hall ⟨d, h⟩

theorem hexDigit_ne_plus (d : Nat) (h : d < 10) : hexDigit d ≠ '+' := by
  have hall : ∀ m : Fin 10, hexDigit m.val ≠ '+' := by decide
  exact hall ⟨d, h⟩

theorem foldl_map_hexDigit (ds : List Nat) (a : Nat)
    (h : ∀ d ∈ ds, d < 10) :
    List.foldl (fun acc c => acc * 10 + (c.toNat - 48)) a (ds.map hexDigit) =
      List.foldl (fun acc d => acc * 10 + d) a ds := by
  induction ds generalizing a with
  | nil => rfl
  | cons d t ih =>
    rw [List.map_cons, List.foldl_cons, List.foldl_cons,
        hexDigit_toNat_sub d (h d (List.mem_cons_self d t))]
    exact ih _ (fun x hx => h x (List.mem_cons_of_mem d hx))

/-- Parsing the decimal rendering of any `u32`-representable value
succeeds and returns that value. -/
theorem parseU32_decimalChars (n : Nat) (h : n < 4294967296) :
    parseU32 (decimalChars n) = some n := by
  by_cases h0 : n = 0
  · subst h0; decide
  · have hds : decimalDigits n = Nat.digits 10 n := decimalDigits_eq n
    have hlt : ∀ d ∈ (decimalDigits n).reverse, d < 10 := by
      intro d hd
      exact Nat.digits_lt_base (by norm_num)
        (hds ▸ List.mem_reverse.mp hd)
    have hne : (decimalDigits n).reverse ≠ [] := by
      rw [hds]
      intro hcon
      exact (Nat.digits_ne_nil_iff_ne_zero.mpr h0)
        (List.reverse_eq_nil_iff.mp hcon)
    rcases List.exists_cons_of_ne_nil hne with ⟨d, t, hcons⟩
    have hdlt : d < 10 := hlt d (hcons ▸ List.mem_cons_self d t)
    have hfold :
        List.foldl (fun acc c => acc * 10 + (c.toNat - 48)) 0
          (((decimalDigits n).reverse).map hexDigit) = n := by
      rw [foldl_map_hexDigit _ _ hlt, foldl_base10, List.reverse_reverse,
          hds, Nat.ofDigits_digits]
      simp
    unfold decimalChars
    rw [if_neg h0, hcons]
    unfold parseU32
    rw [List.map_cons]
    simp only [if_neg (hexDigit_ne_plus d hdlt), List.isEmpty_cons,
      Bool.false_eq_true, if_false]
    have hall : (hexDigit d :: t.map hexDigit).all isDigitChar = true := by
      rw [List.all_eq_true]
      intro c hc
      rw [← List.map_cons, ← hcons] at hc
      rcases List.mem_map.mp hc with ⟨x, hx, rfl⟩
      exact hexDigit_is_digit x (hlt x hx)
    rw [hall]
    simp only [if_true]
    have hmap : hexDigit d :: List.map hexDigit t =
        List.map hexDigit ((decimalDigits n).reverse) := by
      rw [hcons, List.map_cons]
    rw [hmap, hfold, if_pos h]

/-! ## Claim C1 -/

/-- C1: the claim states that every `ProofResponse` has either
`success = true` with both `proof_hex` and `public_inputs` non-empty, or
`success = false` with both empty.  This is false: when the pipeline
fails while collecting public inputs (here: both public-input artifacts
absent after a successful hex conversion, main.rs:213-219), the returned
response has `success = false` together with the already-computed
non-empty `proof_hex`. -/
theorem c1_counterexample :
    generate_proof envNoPub reqStd = .ok respNoPub ∧
    respNoPub.success = false ∧ respNoPub.proof_hex ≠ [] ∧
    respNoPub.public_inputs = [] := by
  refine ⟨by decide, by decide, by decide, by decide⟩

/-- C1 (amended): every response returned by `generate_proof` satisfies
the invariant that actually holds: on `success = true` the `proof_hex`
field is non-empty (it always carries the `0x`-prefixed hex dump), and
on `success = false` the `public_inputs` field is empty.  Failures
before the hex conversion also have `proof_hex` empty, but failures
during public-input collection keep the non-empty `proof_hex`. -/
theorem c1_invariant_amended (env : PipelineEnv) (request : ProofRequest)
    (resp : ProofResponse) (h : generate_proof env request = .ok resp) :
    (resp.success = true → resp.proof_hex ≠ []) ∧
    (resp.success = false → resp.public_inputs = []) := by
  unfold generate_proof at h
  repeat' split at h
  all_goals cases h
  all_goals constructor
  all_goals intro hs
  all_goals first
    | rfl
    | (show rustTrim (("0x").data ++ hexEncode env.proofBytes) ≠ []
       rw [proofHex_trim]
       exact proofHex_ne_nil _)
    | simp at hs

/-- Witness for `c1_invariant_amended` at the concrete environment
`envNoPub`. -/
theorem c1_invariant_amended_witness :
    generate_proof envNoPub reqStd = .ok respNoPub ∧
    ((respNoPub.success = true → respNoPub.proof_hex ≠ []) ∧
     (respNoPub.success = false → respNoPub.public_inputs = [])) :=
  ⟨by decide, c1_invariant_amended envNoPub reqStd respNoPub (by decide)⟩

/-! ## Claim C7 -/

theorem hexPattern_encode (bs : List Nat) (h : bs ≠ []) :
    matchesHexPattern (("0x").data ++ hexEncode bs) = true := by
  rcases List.exists_cons_of_ne_nil h with ⟨b, t, rfl⟩
  show matchesHexPattern
    ('0' :: 'x' :: (hexDigit (b / 16) :: hexDigit b :: hexEncode t)) = true
  unfold matchesHexPattern
  simp only [List.isEmpty_cons, Bool.not_false, Bool.and_true, Bool.true_and,
    Bool.and_eq_true, decide_eq_true_eq, List.all_eq_true]
  refine ⟨⟨trivial, trivial⟩, ?_⟩
  intro c hc
  rcases hc with _ | ⟨_, hc⟩
  · exact hexDigit_is_hex _
  · rcases hc with _ | ⟨_, hc⟩
    · exact hexDigit_is_hex _
    · rcases mem_hexEncode t c hc with ⟨n, rfl⟩
      exact hexDigit_is_hex n

/-- C7: the claim states that every successful response has `proof_hex`
equal to the hex encoding of the proof bytes with `0x` prefix, and that
it therefore matches `0x[0-9a-f]+`.  The second half is false when the
proof artifact exists but is empty: the pipeline still succeeds and
`proof_hex` is exactly `0x`, which has no hex digit after the prefix. -/
theorem c7_counterexample :
    generate_proof envEmptyProof reqStd = .ok respEmptyProof ∧
    respEmptyProof.success = true ∧
    respEmptyProof.proof_hex = ("0x").data ∧
    matchesHexPattern respEmptyProof.proof_hex = false := by
  refine ⟨by decide, by decide, by decide, by decide⟩

/-- C7 (amended): on every successful run, `proof_hex` is exactly the
`0x`-prefixed lowercase hex encoding of the proof artifact bytes, and
whenever the proof artifact is non-empty it matches `0x[0-9a-f]+`. -/
theorem c7_proof_hex_amended (env : PipelineEnv) (request : ProofRequest)
    (resp : ProofResponse) (h : generate_proof env request = .ok resp)
    (hs : resp.success = true) :
    resp.proof_hex = ("0x").data ++ hexEncode env.proofBytes ∧
    (env.proofBytes ≠ [] → matchesHexPattern resp.proof_hex = true) := by
  unfold generate_proof at h
  repeat' split at h
  all_goals cases h
  all_goals first
    | (refine ⟨proofHex_trim env.proofBytes, fun hb => ?_⟩
       show matchesHexPattern
         (rustTrim (("0x").data ++ hexEncode env.proofBytes)) = true
       rw [proofHex_trim]
       exact hexPattern_encode _ hb)
    | simp at hs

/-- Witness for `c7_proof_hex_amended` at the concrete environment
`envOk` (proof bytes `[1, 2]`). -/
theorem c7_proof_hex_amended_witness :
    generate_proof envOk reqStd = .ok respOk ∧ respOk.success = true ∧
    envOk.proofBytes ≠ [] ∧
    respOk.proof_hex = ("0x").data ++ hexEncode envOk.proofBytes ∧
    matchesHexPattern respOk.proof_hex = true := by
  have h := c7_proof_hex_amended envOk reqStd respOk (by decide) (by decide)
  exact ⟨by decide, by decide, by decide, h.1, h.2 (by decide)⟩

/-! ## Claim C4 -/

/-- C4: whenever the circuit executor exits with non-zero status, the
pipeline returns `Ok` with a failed response whose message embeds the
executor's stderr, and the session that invoked it still terminates
normally (result `Ok(())`, transcript ending in the closing line). -/
theorem c4_constraint_violation (senv : SessionEnv) (ageLine bmiLine : Str)
    (a b : Nat) (r : ToolResult)
    (ha : parseU32 (rustTrim ageLine) = some a)
    (hb : parseU32 (rustTrim bmiLine) = some b)
    (hw : senv.penv.writeErr = none)
    (hn : senv.penv.nargoExecute = some r)
    (hr : r.success = false) :
    generate_proof senv.penv { age := a, bmi_multiplied := b } =
      .ok { proof_hex := [], public_inputs := [], success := false,
            message := execFailText r.stderr } ∧
    containsSeg (execFailText r.stderr) r.stderr = true ∧
    (handle_client senv ageLine bmiLine).outcome = .ok () ∧
    (handle_client senv ageLine bmiLine).transcript =
      welcomeText ++ agePromptText ++ bmiPromptText ++ progressText ++
      resultBlockText
        { proof_hex := [], public_inputs := [], success := false,
          message := execFailText r.stderr } ++
      errorDetailsText (execFailText r.stderr) ++ closingText := by
  have hgp : generate_proof senv.penv { age := a, bmi_multiplied := b } =
      .ok { proof_hex := [], public_inputs := [], success := false,
            message := execFailText r.stderr } := by
    simp [generate_proof, hw, hn, hr]
  refine ⟨hgp, containsSeg_append_self _ _, ?_, ?_⟩
  · unfold handle_client
    rw [ha, hb]
    dsimp only
    rw [hgp]
    rfl
  · unfold handle_client
    rw [ha, hb]
    dsimp only
    rw [hgp]
    rfl

/-- Witness for `c4_constraint_violation` on `envNargoFail`. -/
theorem c4_constraint_violation_witness :
    parseU32 (rustTrim (("15\n").data)) = some 15 ∧
    parseU32 (rustTrim (("200\n").data)) = some 200 ∧
    generate_proof envNargoFail { age := 15, bmi_multiplied := 200 } =
      .ok { proof_hex := [], public_inputs := [], success := false,
            message := execFailText (("assertion failed").data) } ∧
    containsSeg (execFailText (("assertion failed").data))
      (("assertion failed").data) = true ∧
    (handle_client (senvOf envNargoFail) (("15\n").data) (("200\n").data)).outcome =
      .ok () := by
  have h := c4_constraint_violation (senvOf envNargoFail)
    (("15\n").data) (("200\n").data) 15 200 toolFail
    (by decide) (by decide) (by decide) (by decide) (by decide)
  exact ⟨by decide, by decide, h.1, h.2.1, h.2.2.1⟩

/-! ## Claim C5 -/

/-- C5: after a zero-exit circuit execution, if the witness artifact is
absent in both its compressed and uncompressed forms, the pipeline
returns a failed response reporting the missing witness, and no
response with `success = true` can be returned. -/
theorem c5_missing_witness_artifact (env : PipelineEnv)
    (request : ProofRequest) (r : ToolResult)
    (hw : env.writeErr = none) (hn : env.nargoExecute = some r)
    (hr : r.success = true) (hgz : env.witnessGzExists = false)
    (hpl : env.witnessExists = false) :
    generate_proof env request =
      .ok { proof_hex := [], public_inputs := [], success := false,
            message := witnessMissingText } ∧
    ∀ resp, generate_proof env request = .ok resp → resp.success = false := by
  have hgp : generate_proof env request =
      .ok { proof_hex := [], public_inputs := [], success := false,
            message := witnessMissingText } := by
    simp [generate_proof, hw, hn, hr, hgz, hpl]
  refine ⟨hgp, ?_⟩
  intro resp h
  rw [hgp] at h
  cases h
  rfl

/-- Witness for `c5_missing_witness_artifact` on `envNoWitness`. -/
theorem c5_missing_witness_artifact_witness :
    generate_proof envNoWitness reqStd =
      .ok { proof_hex := [], public_inputs := [], success := false,
            message := witnessMissingText } := by
  have h := c5_missing_witness_artifact envNoWitness reqStd toolOk
    (by decide) (by decide) (by decide) (by decide) (by decide)
  exact h.1

/-! ## Claim C6 -/

theorem proofMissing_ne_bbFail (d : Bool) (e : Str) :
    proofMissingText d ≠ bbFailText e := by
  intro hcon
  have h6 := congrArg (fun l => l[6]?) hcon
  simp only at h6
  have hl : (proofMissingText d)[6]? = some 'f' := by
    cases d <;> decide
  have hr2 : (bbFailText e)[6]? = some 'g' := by
    unfold bbFailText
    rw [List.getElem?_append_left (by decide)]
    decide
  rw [hl, hr2] at h6
  simp at h6

/-- C6: when the proof generator exits zero but the proof artifact does
not exist, the pipeline returns a failed response naming the missing
proof file, and that message is distinct from every non-zero-exit
(`Proof generation failed`) message. -/
theorem c6_missing_proof_artifact (env : PipelineEnv)
    (request : ProofRequest) (r s : ToolResult)
    (hw : env.writeErr = none) (hn : env.nargoExecute = some r)
    (hr : r.success = true)
    (hwit : (env.witnessGzExists || env.witnessExists) = true)
    (hbb : env.bbProve = some s) (hs : s.success = true)
    (hpf : env.proofExists = false) :
    generate_proof env request =
      .ok { proof_hex := [], public_inputs := [], success := false,
            message := proofMissingText env.dockerDetect } ∧
    ∀ e, proofMissingText env.dockerDetect ≠ bbFailText e := by
  have hno : (!env.witnessGzExists && !env.witnessExists) = false := by
    cases h1 : env.witnessGzExists <;> cases h2 : env.witnessExists <;>
      simp_all
  refine ⟨?_, fun e => proofMissing_ne_bbFail env.dockerDetect e⟩
  simp [generate_proof, hw, hn, hr, hno, hbb, hs, hpf]

/-- Witness for `c6_missing_proof_artifact` on `envNoProof`. -/
theorem c6_missing_proof_artifact_witness :
    generate_proof envNoProof reqStd =
      .ok { proof_hex := [], public_inputs := [], success := false,
            message := proofMissingText true } ∧
    proofMissingText true ≠ bbFailText (("boom").data) := by
  have h := c6_missing_proof_artifact envNoProof reqStd toolOk toolOk
    (by decide) (by decide) (by decide) (by decide) (by decide) (by decide)
    (by decide)
  exact ⟨h.1, h.2 (("boom").data)⟩

/-! ## Claim C8 -/

theorem errArm_ne_resultBlock (e : Str) (resp : ProofResponse) :
    errArmText e ≠ resultBlockText resp := by
  intro hcon
  have h0 := congrArg (fun l => l.head?) hcon
  simp only at h0
  have hl : (errArmText e).head? = some 'E' := rfl
  have hr2 : (resultBlockText resp).head? = some '\n' := rfl
  rw [hl, hr2] at h0
  simp at h0

/-- C8: the tool-invoker contract.  A hard `Err` from the pipeline can
only originate from the Prover.toml write or from a program that could
not be started (a spawn failure of `nargo`, `bb` or the hex-conversion
shell); a tool that starts and exits non-zero always yields an `Ok`
failed response with its captured stderr embedded; and the session
rendering of a hard error is distinguishable from the rendering of a
constraint-violation result. -/
theorem c8_tool_invocation (env : PipelineEnv) (request : ProofRequest) :
    (∀ e, generate_proof env request = .error e →
      env.writeErr ≠ none ∨ env.nargoExecute = none ∨ env.bbProve = none ∨
      env.hexSpawnOk = false) ∧
    (∀ r, env.writeErr = none → env.nargoExecute = some r →
      r.success = false →
      generate_proof env request =
        .ok { proof_hex := [], public_inputs := [], success := false,
              message := execFailText r.stderr } ∧
      containsSeg (execFailText r.stderr) r.stderr = true) ∧
    (∀ r s, env.writeErr = none → env.nargoExecute = some r →
      r.success = true →
      (env.witnessGzExists || env.witnessExists) = true →
      env.bbProve = some s → s.success = false →
      generate_proof env request =
        .ok { proof_hex := [], public_inputs := [], success := false,
              message := bbFailText s.stderr } ∧
      containsSeg (bbFailText s.stderr) s.stderr = true) ∧
    (∀ e resp, errArmText e ≠ resultBlockText resp) := by
  refine ⟨?_, ?_, ?_, fun e resp => errArm_ne_resultBlock e resp⟩
  · intro e h
    unfold generate_proof at h
    repeat' split at h
    all_goals cases h
    all_goals simp_all
  · intro r hw hn hr
    refine ⟨?_, containsSeg_append_self _ _⟩
    simp [generate_proof, hw, hn, hr]
  · intro r s hw hn hr hwit hbb hs
    have hno : (!env.witnessGzExists && !env.witnessExists) = false := by
      cases h1 : env.witnessGzExists <;> cases h2 : env.witnessExists <;>
        simp_all
    refine ⟨?_, containsSeg_append_self _ _⟩
    simp [generate_proof, hw, hn, hr, hno, hbb, hs]

/-! ## Claim C3 -/

/-- C3: the claim describes the binary fallback as unconditionally
splitting the raw `public_inputs` bytes into 32-byte field elements
rendered inside a JSON-like array.  This is false when the byte length
is not a multiple of 32: with a single byte `0xab` the code takes the
`else` branch at main.rs:198 and returns the single blob `0xab`, not an
array. -/
theorem c3_counterexample :
    generate_proof envOneByte reqStd = .ok respOneByte ∧
    respOneByte.success = true ∧
    respOneByte.public_inputs = ("0xab").data ∧
    respOneByte.public_inputs ≠ claimedBinaryRender [171] ∧
    respOneByte.public_inputs.head? ≠ some '[' := by
  refine ⟨by decide, by decide, by decide, by decide, by decide⟩

/-- C3 (amended): the ordered fallback of the EncodeAndCollect stage.
When the run reaches step 5: the fields JSON is preferred when present
(read failure fails the run); otherwise the raw `public_inputs`
artifact is read as text; if text reading fails it is read as binary
and rendered by `binaryPublicInputs`, which splits into 32-byte field
elements inside a JSON-like array only when the hex length is a
positive multiple of 64, and otherwise renders one `0x`-prefixed blob;
if the raw artifact is absent the run fails (`MissingArtifact`,
`success = false`). -/
theorem c3_fallback_amended (env : PipelineEnv) (request : ProofRequest)
    (hreach : reachesCollect env = true) :
    (∀ c, env.fieldsJsonExists = true → env.fieldsJsonText = some c →
      generate_proof env request =
        .ok { proof_hex := collectedHex env, public_inputs := rustTrim c,
              success := true, message := successText }) ∧
    (∀ t, env.fieldsJsonExists = false → env.pubExists = true →
      env.pubText = some t →
      generate_proof env request =
        .ok { proof_hex := collectedHex env, public_inputs := rustTrim t,
              success := true, message := successText }) ∧
    (∀ bs, env.fieldsJsonExists = false → env.pubExists = true →
      env.pubText = none → env.pubBytes = some bs →
      generate_proof env request =
        .ok { proof_hex := collectedHex env,
              public_inputs := binaryPublicInputs bs,
              success := true, message := successText }) ∧
    (env.fieldsJsonExists = false → env.pubExists = false →
      generate_proof env request =
        .ok { proof_hex := collectedHex env, public_inputs := [],
              success := false,
              message := neitherPubText env.dockerDetect }) ∧
    (∀ bs, ((hexEncode bs).length % 64 == 0 && !(hexEncode bs).isEmpty) = true →
      binaryPublicInputs bs =
        ("[").data ++
          joinComma ((chunk64 (hexEncode bs)).map
            (fun c => ("\"0x").data ++ c ++ ("\"").data)) ++ ("]").data) ∧
    (∀ bs, ((hexEncode bs).length % 64 == 0 && !(hexEncode bs).isEmpty) = false →
      binaryPublicInputs bs = ("0x").data ++ hexEncode bs) := by
  have hw : env.writeErr = none := by
    have := hreach
    unfold reachesCollect at this
    cases hcase : env.writeErr <;> simp_all
  obtain ⟨r, hno, hnm⟩ :
      ∃ r, env.nargoExecute = some r ∧ r.success = true := by
    have := hreach
    unfold reachesCollect at this
    cases hcase : env.nargoExecute <;> simp_all
  obtain ⟨s, hbb, hbm⟩ :
      ∃ s, env.bbProve = some s ∧ s.success = true := by
    have := hreach
    unfold reachesCollect at this
    cases hcase : env.bbProve <;> simp_all
  have hwit : (!env.witnessGzExists && !env.witnessExists) = false := by
    have := hreach
    unfold reachesCollect at this
    cases h1 : env.witnessGzExists <;> cases h2 : env.witnessExists <;>
      simp_all
  have hpe : env.proofExists = true := by
    have := hreach
    unfold reachesCollect at this
    simp_all
  have hhx : env.hexSpawnOk = true := by
    have := hreach
    unfold reachesCollect at this
    simp_all
  refine ⟨?_, ?_, ?_, ?_, ?_, ?_⟩
  · intro c hfe hft
    simp [generate_proof, collectedHex, hw, hno, hnm, hwit, hbb, hbm, hpe,
      hhx, hfe, hft]
  · intro t hfe hpx hpt
    simp [generate_proof, collectedHex, hw, hno, hnm, hwit, hbb, hbm, hpe,
      hhx, hfe, hpx, hpt]
  · intro bs hfe hpx hpt hpb
    simp [generate_proof, collectedHex, hw, hno, hnm, hwit, hbb, hbm, hpe,
      hhx, hfe, hpx, hpt, hpb]
  · intro hfe hpx
    simp [generate_proof, collectedHex, hw, hno, hnm, hwit, hbb, hbm, hpe,
      hhx, hfe, hpx]
  · intro bs hguard
    unfold binaryPublicInputs
    dsimp only
    rw [hguard]
    rfl
  · intro bs hguard
    unfold binaryPublicInputs
    dsimp only
    rw [hguard]
    rfl

/-- Witness for `c3_fallback_amended` on `envOneByte` (binary fallback
with a 1-byte artifact). -/
theorem c3_fallback_amended_witness :
    reachesCollect envOneByte = true ∧
    generate_proof envOneByte reqStd =
      .ok { proof_hex := collectedHex envOneByte,
            public_inputs := binaryPublicInputs [171],
            success := true, message := successText } ∧
    binaryPublicInputs [171] = ("0x").data ++ hexEncode [171] := by
  have h := c3_fallback_amended envOneByte reqStd (by decide)
  exact ⟨by decide, h.2.2.1 [171] (by decide) (by decide) (by decide)
    (by decide), h.2.2.2.2.2 [171] (by decide)⟩

/-- Witness for `c8_tool_invocation` on `envNargoSpawnFail` (first
conjunct) and `envNargoFail` (second conjunct). -/
theorem c8_tool_invocation_witness :
    (envNargoSpawnFail.writeErr ≠ none ∨
     envNargoSpawnFail.nargoExecute = none ∨
     envNargoSpawnFail.bbProve = none ∨
     envNargoSpawnFail.hexSpawnOk = false) ∧
    (generate_proof envNargoFail reqStd =
      .ok { proof_hex := [], public_inputs := [], success := false,
            message := execFailText (("assertion failed").data) } ∧
     containsSeg (execFailText (("assertion failed").data))
       (("assertion failed").data) = true) := by
  have h1 := (c8_tool_invocation envNargoSpawnFail reqStd).1
    (("Failed to execute circuit").data) (by decide)
  have h2 := (c8_tool_invocation envNargoFail reqStd).2.1 toolFail
    (by decide) (by decide) (by decide)
  exact ⟨h1, h2⟩

/-! ## Session decomposition helpers -/

theorem handle_client_transcript (senv : SessionEnv) (ageLine bmiLine : Str)
    (a b : Nat) (ha : parseU32 (rustTrim ageLine) = some a)
    (hb : parseU32 (rustTrim bmiLine) = some b) :
    (handle_client senv ageLine bmiLine).transcript =
      welcomeText ++ agePromptText ++ bmiPromptText ++ progressText ++
        sessionTail senv
          (generate_proof senv.penv { age := a, bmi_multiplied := b }) := by
  unfold handle_client
  rw [ha, hb]
  dsimp only
  cases hg : generate_proof senv.penv { age := a, bmi_multiplied := b } with
  | ok response =>
    cases hsucc : response.success with
    | false => simp [sessionTail, hsucc, List.append_assoc]
    | true =>
      cases hsp : senv.saveProofErr with
      | some e => simp [sessionTail, hsucc, hsp, List.append_assoc]
      | none =>
        cases hpu : senv.savePubErr with
        | some e => simp [sessionTail, hsucc, hsp, hpu, List.append_assoc]
        | none => simp [sessionTail, hsucc, hsp, hpu, List.append_assoc]
  | error e => simp [sessionTail, List.append_assoc]

theorem handle_client_invoked (senv : SessionEnv) (ageLine bmiLine : Str)
    (a b : Nat) (ha : parseU32 (rustTrim ageLine) = some a)
    (hb : parseU32 (rustTrim bmiLine) = some b) :
    (handle_client senv ageLine bmiLine).pipelineInvoked = true := by
  unfold handle_client
  rw [ha, hb]
  dsimp only
  cases hg : generate_proof senv.penv { age := a, bmi_multiplied := b } with
  | ok response =>
    cases hsucc : response.success with
    | false => simp [hsucc]
    | true =>
      cases hsp : senv.saveProofErr with
      | some e => simp [hsucc, hsp]
      | none =>
        cases hpu : senv.savePubErr with
        | some e => simp [hsucc, hsp, hpu]
        | none => simp [hsucc, hsp, hpu]
  | error e => rfl

theorem handle_client_request (senv : SessionEnv) (ageLine bmiLine : Str)
    (a b : Nat) (ha : parseU32 (rustTrim ageLine) = some a)
    (hb : parseU32 (rustTrim bmiLine) = some b) :
    (handle_client senv ageLine bmiLine).request =
      some { age := a, bmi_multiplied := b } := by
  unfold handle_client
  rw [ha, hb]
  dsimp only
  cases hg : generate_proof senv.penv { age := a, bmi_multiplied := b } with
  | ok response =>
    cases hsucc : response.success with
    | false => simp [hsucc]
    | true =>
      cases hsp : senv.saveProofErr with
      | some e => simp [hsucc, hsp]
      | none =>
        cases hpu : senv.savePubErr with
        | some e => simp [hsucc, hsp, hpu]
        | none => simp [hsucc, hsp, hpu]
  | error e => rfl

/-! ## Claim C2 -/

/-- C2: the claim states that a malformed input line terminates the
session **with an error line written back to the client**.  The second
part is false: on a parse failure the question-mark operator at
main.rs:246 aborts `handle_client` before anything further is written
to the client stream — the transcript is exactly the banner and prompt
that were sent before the input was read, and the error text appears
only in the accept loop's server-side log.  (The pipeline is indeed
never invoked.) -/
theorem c2_counterexample :
    (handle_client (senvOf envOk) (("abc\n").data) (("200\n").data)).outcome =
      .error (("Invalid age input").data) ∧
    (handle_client (senvOf envOk) (("abc\n").data) (("200\n").data)).pipelineInvoked
      = false ∧
    (handle_client (senvOf envOk) (("abc\n").data) (("200\n").data)).transcript =
      welcomeText ++ agePromptText ∧
    containsSeg
      (handle_client (senvOf envOk) (("abc\n").data) (("200\n").data)).transcript
      (("Invalid").data) = false := by
  refine ⟨by decide, by decide, by decide, by decide⟩

/-- C2 (amended): a malformed input line terminates the session with the
parse error returned to the accept loop, which logs an error line on
the **server console**; nothing further (in particular no error line)
is written back to the client after the malformed line, and the proof
pipeline is never invoked. -/
theorem c2_amended (senv : SessionEnv) (ageLine bmiLine addr : Str) :
    (parseU32 (rustTrim ageLine) = none →
      (handle_client senv ageLine bmiLine).outcome =
        .error (("Invalid age input").data) ∧
      (handle_client senv ageLine bmiLine).pipelineInvoked = false ∧
      (handle_client senv ageLine bmiLine).request = none ∧
      (handle_client senv ageLine bmiLine).transcript =
        welcomeText ++ agePromptText ∧
      acceptLogLine addr (handle_client senv ageLine bmiLine).outcome =
        ("Error handling client ").data ++ addr ++ (": ").data ++
          ("Invalid age input").data ++ ("\n").data) ∧
    (∀ a, parseU32 (rustTrim ageLine) = some a →
      parseU32 (rustTrim bmiLine) = none →
      (handle_client senv ageLine bmiLine).outcome =
        .error (("Invalid BMI input").data) ∧
      (handle_client senv ageLine bmiLine).pipelineInvoked = false ∧
      (handle_client senv ageLine bmiLine).transcript =
        welcomeText ++ agePromptText ++ bmiPromptText) := by
  constructor
  · intro hnone
    unfold handle_client
    rw [hnone]
    exact ⟨rfl, rfl, rfl, rfl, rfl⟩
  · intro a hsome hnone
    unfold handle_client
    rw [hsome, hnone]
    exact ⟨rfl, rfl, rfl⟩

/-- Witness for `c2_amended` at input `abc`. -/
theorem c2_amended_witness :
    (handle_client (senvOf envOk) (("abc\n").data) (("200\n").data)).pipelineInvoked
      = false ∧
    acceptLogLine (("127.0.0.1:5000").data)
      (handle_client (senvOf envOk) (("abc\n").data) (("200\n").data)).outcome =
      ("Error handling client ").data ++ (("127.0.0.1:5000").data) ++
        (": ").data ++ ("Invalid age input").data ++ ("\n").data := by
  have h := (c2_amended (senvOf envOk) (("abc\n").data) (("200\n").data)
    (("127.0.0.1:5000").data)).1 (by decide)
  exact ⟨h.2.1, h.2.2.2.2⟩

/-! ## Claim C9 -/

/-- C9: in every session whose two inputs parse, the transcript is the
fixed preamble — banner, prompts and the progress narration (whose step
portion is exactly 4 lines) — followed by a tail that is a function of
the pipeline result alone: the narration bytes precede everything the
pipeline outcome determines and do not depend on it, i.e. they are
written before the pipeline is invoked; and the pipeline is invoked. -/
theorem c9_progress_before_pipeline (senv : SessionEnv)
    (ageLine bmiLine : Str) (a b : Nat)
    (ha : parseU32 (rustTrim ageLine) = some a)
    (hb : parseU32 (rustTrim bmiLine) = some b) :
    (handle_client senv ageLine bmiLine).transcript =
      welcomeText ++ agePromptText ++ bmiPromptText ++ progressText ++
        sessionTail senv
          (generate_proof senv.penv { age := a, bmi_multiplied := b }) ∧
    (handle_client senv ageLine bmiLine).pipelineInvoked = true ∧
    stepLinesText.count '\n' = 4 := by
  exact ⟨handle_client_transcript senv ageLine bmiLine a b ha hb,
         handle_client_invoked senv ageLine bmiLine a b ha hb,
         by decide⟩

/-- Witness for `c9_progress_before_pipeline` on a successful session. -/
theorem c9_progress_before_pipeline_witness :
    (handle_client (senvOf envOk) (("15\n").data) (("200\n").data)).transcript =
      welcomeText ++ agePromptText ++ bmiPromptText ++ progressText ++
        sessionTail (senvOf envOk)
          (generate_proof envOk { age := 15, bmi_multiplied := 200 }) ∧
    (handle_client (senvOf envOk) (("15\n").data) (("200\n").data)).pipelineInvoked
      = true ∧
    stepLinesText.count '\n' = 4 :=
  c9_progress_before_pipeline (senvOf envOk) (("15\n").data) (("200\n").data)
    15 200 (by decide) (by decide)

/-! ## Claim C10 -/

/-- C10: the session layer strips surrounding whitespace (the ASCII
whitespace of the claim is contained in what Rust strips) before
parsing, so `"  15  \n"` is accepted as 15; and it accepts every
`u32`-representable value with no range check of its own — in
particular 4294967295, far outside the prompted 10-25 range, still
reaches the pipeline as the parsed age. -/
theorem c10_trim_and_range (senv : SessionEnv) (pre post s : Str)
    (hpre : ∀ c ∈ pre, isWhite c = true)
    (hpost : ∀ c ∈ post, isWhite c = true) :
    parseU32 (rustTrim (pre ++ s ++ post)) = parseU32 (rustTrim s) ∧
    (∀ n, n < 4294967296 → parseU32 (decimalChars n) = some n) ∧
    (handle_client senv (("  15  \n").data) (("200\n").data)).request =
      some { age := 15, bmi_multiplied := 200 } ∧
    (handle_client senv (("4294967295\n").data) (("200\n").data)).request =
      some { age := 4294967295, bmi_multiplied := 200 } := by
  refine ⟨by rw [rustTrim_pad pre s post hpre hpost],
          fun n hn => parseU32_decimalChars n hn, ?_, ?_⟩
  · exact handle_client_request senv _ _ 15 200 (by decide) (by decide)
  · exact handle_client_request senv _ _ 4294967295 200 (by decide) (by decide)

/-- Witness for `c10_trim_and_range` with one-space padding. -/
theorem c10_trim_and_range_witness :
    parseU32 (rustTrim (([' ']) ++ (("15").data) ++ (['\n']))) =
      parseU32 (rustTrim (("15").data)) ∧
    parseU32 (decimalChars 4294967295) = some 4294967295 ∧
    (handle_client (senvOf envOk) (("  15  \n").data) (("200\n").data)).request =
      some { age := 15, bmi_multiplied := 200 } := by
  have h := c10_trim_and_range (senvOf envOk) ([' ']) (['\n']) (("15").data)
    (by decide) (by decide)
  exact ⟨h.1, h.2.1 4294967295 (by decide), h.2.2.1⟩

end ZKIns
